import Mathlib

/-!
Verification development for the Minecraft Education world-toolkit web
application (`app.py`).  The localization-file locator, the educational
content classifier, the text extractor, the readability / spelling
analyzers, the custom-dictionary mutation and the file-content API path
check are embedded shallowly: Python string/list operations are modelled
as executable Lean functions on `String` / `List Char`, machine floats are
modelled as `ℚ` with Python's banker's rounding made explicit, and the
filesystem is passed explicitly (a directory is a list of files, a file's
discovery-time size and its readable content are the two pieces of
metadata the source obtains through separate `os` calls).
-/

namespace MCEdu

/-! ### Python string primitives, modelled on `List Char`

All scanners are either structural or fuelled with the input length, so
every definition evaluates by `decide` / `rfl`.
-/

/-- Model of Python's `str.startswith` on character lists
(`pat` is the candidate leading segment of `s`). -/
def beginsWith : List Char → List Char → Bool
  | [], _ => true
  | _ :: _, [] => false
  | a :: as, b :: bs => a = b && beginsWith as bs

/-- Model of Python's substring test `pat in s` on character lists. -/
def hasSub (pat : List Char) : List Char → Bool
  | [] => beginsWith pat []
  | c :: rest => beginsWith pat (c :: rest) || hasSub pat rest

/-- `pat in s` for strings (Python's `in` operator on `str`). -/
def strContains (s pat : String) : Bool := hasSub pat.toList s.toList

/-- `s.startswith(pat)` for strings. -/
def pyBeginsWith (s pat : String) : Bool := beginsWith pat.toList s.toList

/-- `s.endswith(pat)` for strings. -/
def pyEndsWith (s pat : String) : Bool := beginsWith pat.toList.reverse s.toList.reverse

/-- `s.lower()` (the source only lowercases ASCII identifiers/filenames). -/
def pyLower (s : String) : String := ⟨s.toList.map Char.toLower⟩

/-- `s.strip()`: drop whitespace from both ends. -/
def stripChars (cs : List Char) : List Char :=
  ((cs.dropWhile Char.isWhitespace).reverse.dropWhile Char.isWhitespace).reverse

/-- `s.strip()` on strings. -/
def pyStrip (s : String) : String := ⟨stripChars s.toList⟩

/-- Fuelled worker for `replaceSub`; consumes at least one character per step. -/
def replaceFuel (pat rep : List Char) : ℕ → List Char → List Char
  | 0, s => s
  | _ + 1, [] => []
  | fuel + 1, c :: rest =>
    if beginsWith pat (c :: rest) then
      rep ++ replaceFuel pat rep fuel (List.drop (pat.length - 1) rest)
    else
      c :: replaceFuel pat rep fuel rest

/-- `s.replace(pat, rep)` for a nonempty `pat`: replace every
non-overlapping occurrence, scanning left to right. -/
def pyReplace (s pat rep : String) : String :=
  ⟨replaceFuel pat.toList rep.toList (s.toList.length + 1) s.toList⟩

/-- Split a character list at every character satisfying `p`, keeping empty
pieces (the behaviour of Python's `str.split('\n')`-style splitting). -/
def splitKeep (p : Char → Bool) : List Char → List (List Char)
  | [] => [[]]
  | c :: rest =>
    if p c then [] :: splitKeep p rest
    else
      match splitKeep p rest with
      | g :: gs => (c :: g) :: gs
      | [] => [[c]]

/-- `content.split('\n')` on strings. -/
def splitLinesStr (s : String) : List String :=
  (splitKeep (fun c => c = '\n') s.toList).map (fun cs => ⟨cs⟩)

/-- Python's whitespace split `s.split()` (no argument): split on
whitespace runs and drop empty pieces. -/
def pyWordsChars (cs : List Char) : List (List Char) :=
  (splitKeep Char.isWhitespace cs).filter (fun w => w ≠ [])

/-- `s.split()` on strings, as strings. -/
def pyWords (s : String) : List String := (pyWordsChars s.toList).map (fun cs => ⟨cs⟩)

/-- Python `str.isdigit` (ASCII fragment): nonempty and all digits. -/
def pyIsDigit (s : String) : Bool := s.toList ≠ [] && s.toList.all Char.isDigit

/-- Python's 1-argument `round` on a rational: round half to even
(banker's rounding), otherwise to the nearest integer. -/
def pyRound (q : ℚ) : ℤ :=
  if q - ⌊q⌋ = 1 / 2 then (if ⌊q⌋ % 2 = 0 then ⌊q⌋ else ⌊q⌋ + 1) else round q

/-- Python `round(q, 1)`. -/
def pyRound1 (q : ℚ) : ℚ := (pyRound (q * 10) : ℚ) / 10

/-- Python `round(q, 2)`. -/
def pyRound2 (q : ℚ) : ℚ := (pyRound (q * 100) : ℚ) / 100

/-- Python `max(x :: xs, key=size)`: keep the first element whose key is
maximal (later elements replace the champion only when strictly larger). -/
def pyMaxBySize {α : Type} (size : α → ℕ) (x : α) (xs : List α) : α :=
  xs.foldl (fun acc y => if size acc < size y then y else acc) x

/-- One insertion step of a stable descending-by-key sort: `x` is placed
before the first element whose key is `≤ key x`, so earlier list elements
with an equal key stay in front.  `foldr insertDescBy []` is therefore
extensionally the same function as Python's stable
`list.sort(key=key, reverse=True)`. -/
def insertDescBy {α : Type} (key : α → ℕ) (x : α) : List α → List α
  | [] => [x]
  | y :: ys => if key y ≤ key x then x :: y :: ys else y :: insertDescBy key x ys

/-- Stable descending sort by a natural-number key;
models `list.sort(key=key, reverse=True)`. -/
def stableSortDescBy {α : Type} (key : α → ℕ) (l : List α) : List α :=
  l.foldr (insertDescBy key) []

/-! ### Localization file locator (`find_language_files`, app.py 696-761) -/

/-- A file as the filesystem presents it to the locator: base name, path
relative to the unpacked root, the `os.path.getsize` result, and the
content an `open(...).read()` of it yields (the source's `full_path`
handle is modelled by carrying the readable content directly). -/
structure DiskFile where
  name : String
  relative_path : String
  size_bytes : ℕ
  content : String
deriving DecidableEq

/-- The locator's per-file record (the `file_info` dict, app.py 736-744). -/
structure FileInfo where
  name : String
  relative_path : String
  size_bytes : ℕ
  size_kb : ℚ
  is_english : Bool
  language_code : String
  content : String
deriving DecidableEq

/-- `is_english_lang_file` (app.py 703-722): exact filename matches first,
then raw substring indicators. -/
def is_english_lang_file (filename : String) : Bool :=
  let filename_lower := pyLower filename
  let english_patterns : List String :=
    ["en_us.lang", "en_gb.lang", "en_ca.lang", "en_au.lang",
     "en.lang", "english.lang", "us.lang"]
  if english_patterns.contains filename_lower then true
  else
    let english_indicators : List String := ["en_", "english", "_us", "_en"]
    english_indicators.any (fun indicator => strContains filename_lower indicator)

/-- The `language_codes` table (app.py 768-789), in insertion order. -/
def language_codes : List (String × String) :=
  [("en_us", "English (US)"), ("en_gb", "English (UK)"),
   ("en_ca", "English (Canada)"), ("en_au", "English (Australia)"),
   ("en", "English"), ("us", "English (US)"), ("english", "English"),
   ("es_es", "Spanish (Spain)"), ("es_mx", "Spanish (Mexico)"),
   ("fr_fr", "French (France)"), ("fr_ca", "French (Canada)"),
   ("de_de", "German"), ("it_it", "Italian"),
   ("pt_br", "Portuguese (Brazil)"), ("pt_pt", "Portuguese (Portugal)"),
   ("ru_ru", "Russian"), ("zh_cn", "Chinese (Simplified)"),
   ("zh_tw", "Chinese (Traditional)"), ("ja_jp", "Japanese"),
   ("ko_kr", "Korean")]

/-- `extract_language_code` (app.py 763-804): strip the `.lang` suffix,
try an exact table lookup, then the first substring match in table order. -/
def extract_language_code (filename : String) : String :=
  let base_name := pyReplace (pyLower filename) ".lang" ""
  match language_codes.find? (fun p => p.1 = base_name) with
  | some p => p.2
  | none =>
    match language_codes.find? (fun p => strContains base_name p.1) with
    | some p => p.2
    | none => "Unknown"

/-- Build the locator's `file_info` record for one discovered file. -/
def mkFileInfo (f : DiskFile) : FileInfo :=
  { name := f.name
    relative_path := f.relative_path
    size_bytes := f.size_bytes
    size_kb := pyRound2 ((f.size_bytes : ℚ) / 1024)
    is_english := is_english_lang_file f.name
    language_code := extract_language_code f.name
    content := f.content }

/-- `find_language_files` (app.py 696-761).  The unpacked root is
`none` when `os.path.exists` is false; otherwise it is the list of files
the `os.walk` enumerates.  English-classified files are separated from the
rest, each group is stably sorted by descending size, and the English
group is returned first. -/
def find_language_files (root : Option (List DiskFile)) : List FileInfo :=
  match root with
  | none => []
  | some files =>
    let infos := (files.filter (fun f => pyEndsWith (pyLower f.name) ".lang")).map mkFileInfo
    let english_files := infos.filter (fun i => i.is_english)
    let other_files := infos.filter (fun i => !i.is_english)
    stableSortDescBy (fun i => i.size_bytes) english_files ++
      stableSortDescBy (fun i => i.size_bytes) other_files

/-! ### Educational content classifier (`is_educational_content`, app.py 814-879) -/

/-- The `educational_patterns` regex table (app.py 819-846), flattened:
every pattern in the source is an alternation of literal substrings (all
metacharacters are escaped dots), and `re.search` on such a pattern is
exactly "some alternative is a substring of the key". -/
def educational_patterns : List String :=
  ["npc.", "character.", ".dialog.", ".dialogue.",
   "lesson.", "tutorial.", "instruction.", "guide.", "help.",
   "story.", "narrative.", "text.", "message.", "description.",
   "sign.", "book.", "page.", "chapter.",
   "chat.", "conversation.", "speak.", "say.",
   "activity.", "exercise.", "task.", "quest.", "mission.",
   "custom.", "edu.", "learn.", "teach.",
   "world.", "level.", "stage.",
   ".name.", ".title.", "convo.", "dialogue.",
   "agent.", "board.", "slate.", "poster."]

/-- `is_educational_content` (app.py 814-879). -/
def is_educational_content (key value : String) : Bool :=
  let key_lower := pyLower key
  if educational_patterns.any (fun pattern => strContains key_lower pattern) then true
  else if (pyStrip value).length < 3 then false
  else
    let value_lower := pyLower value
    if ["minecraft:", "textures/", "sounds/", "models/", "blockbench",
        "\x7b", "\x7d", "[", "]"].any (fun tech => strContains value_lower tech) then false
    else if pyIsDigit (pyReplace (pyReplace (pyReplace (pyStrip value) "." "") "," "") " "
        "") then false
    else
      let words := pyWords value
      if words.length = 1 &&
          !(["lesson", "tutorial", "help", "guide", "story", "welcome", "instruction",
             "activity"].any (fun edu_word => strContains value_lower edu_word)) then false
      else
        ([".", "!", "?", ",", "the ", "a ", "an ", "and ", "or ", "but ", "with ",
          "to ", "for ", "of ", "in ", "on ", "at "].any
            (fun indicator => strContains value_lower indicator)) || decide (4 ≤ words.length)

/-! ### Text extractor (`extract_text_from_lang_file`, app.py 881-992)

Each `re.sub` of `clean_educational_text` (app.py 884-910) is modelled by
a dedicated scanner with the same leftmost, non-overlapping semantics;
all the source's patterns are simple enough that greedy scanning is exact.
-/

/-- The character class `[0-9a-fk-or]` of the formatting-code pattern. -/
def isFmtCode (c : Char) : Bool :=
  c.isDigit || ('a' ≤ c && c ≤ 'f') || ('k' ≤ c && c ≤ 'o') || c = 'r'

/-- `re.sub(r'§[0-9a-fk-or]', '', text)`. -/
def stripFmtCodes : List Char → List Char
  | [] => []
  | '§' :: c :: rest =>
    if isFmtCode c then stripFmtCodes rest else '§' :: stripFmtCodes (c :: rest)
  | c :: rest => c :: stripFmtCodes rest

/-- `re.sub(r'%[0-9]*[ds]', '[value]', text)` (fuelled scanner). -/
def pctPlaceholder : ℕ → List Char → List Char
  | 0, s => s
  | _ + 1, [] => []
  | fuel + 1, '%' :: rest =>
    match rest.dropWhile Char.isDigit with
    | 'd' :: r2 => "[value]".toList ++ pctPlaceholder fuel r2
    | 's' :: r2 => "[value]".toList ++ pctPlaceholder fuel r2
    | _ => '%' :: pctPlaceholder fuel rest
  | fuel + 1, c :: rest => c :: pctPlaceholder fuel rest

/-- First character of the `%variable%` identifier: `[a-zA-Z_]`. -/
def isIdentStart (c : Char) : Bool := c.isAlpha || c = '_'

/-- Later characters of the `%variable%` identifier: `[a-zA-Z0-9_]`. -/
def isIdentChar (c : Char) : Bool := c.isAlphanum || c = '_'

/-- `re.sub(r'%[a-zA-Z_][a-zA-Z0-9_]*%', '[value]', text)` (fuelled). -/
def pctVariable : ℕ → List Char → List Char
  | 0, s => s
  | _ + 1, [] => []
  | fuel + 1, '%' :: rest =>
    match rest with
    | c :: cs =>
      if isIdentStart c then
        match cs.dropWhile isIdentChar with
        | '%' :: r2 => "[value]".toList ++ pctVariable fuel r2
        | _ => '%' :: pctVariable fuel rest
      else '%' :: pctVariable fuel rest
    | [] => ['%']
  | fuel + 1, c :: rest => c :: pctVariable fuel rest

/-- Collapse every maximal run of characters satisfying `p` into a single
`rep`; the flag records whether a run is in progress.  This is
`re.sub(p+, rep, text)`, and also `re.sub(p\x7b2,\x7d, rep, text)` when a
lone `p`-character is mapped to itself (as with the bracket patterns). -/
def collapseRuns (p : Char → Bool) (rep : Char) : Bool → List Char → List Char
  | _, [] => []
  | inRun, c :: rest =>
    if p c then
      (if inRun then collapseRuns p rep true rest
       else rep :: collapseRuns p rep true rest)
    else c :: collapseRuns p rep false rest

/-- `re.sub(r'\s*([.!?])\s*', r'\1 ', text)` (fuelled): sentence-ending
punctuation, with any whitespace around it, becomes the mark plus one
space. -/
def punctSpacing : ℕ → List Char → List Char
  | 0, s => s
  | _ + 1, [] => []
  | fuel + 1, c :: rest =>
    match (c :: rest).dropWhile Char.isWhitespace with
    | p :: r2 =>
      if p = '.' || p = '!' || p = '?' then
        p :: ' ' :: punctSpacing fuel (r2.dropWhile Char.isWhitespace)
      else c :: punctSpacing fuel rest
    | [] => c :: punctSpacing fuel rest

/-- `' '.join(words)` on character lists. -/
def joinSpace : List (List Char) → List Char
  | [] => []
  | [w] => w
  | w :: ws => w ++ ' ' :: joinSpace ws

/-- `clean_educational_text` (app.py 884-910): the exact chain of
substitutions of the source, ending with the removal of standalone
numeric tokens shorter than 3 digits. -/
def clean_educational_text (text : String) : String :=
  let t1 := stripFmtCodes text.toList
  let t2 := pctPlaceholder (t1.length + 1) t1
  let t3 := pctVariable (t2.length + 1) t2
  let t4 := replaceFuel "\\n".toList " ".toList (t3.length + 1) t3
  let t5 := collapseRuns (fun c => c = '\n') ' ' false t4
  let t6 := collapseRuns (fun c => c = '[') '[' false t5
  let t7 := collapseRuns (fun c => c = ']') ']' false t6
  let t8 := t7.filter (fun c => !(c = '\x7b' || c = '\x7d'))
  let t9 := collapseRuns Char.isWhitespace ' ' false t8
  let t10 := punctSpacing (t9.length + 1) t9
  let words := (pyWordsChars t10).filter
    (fun w => !(w ≠ [] && w.all Char.isDigit && w.length < 3))
  ⟨stripChars (joinSpace words)⟩

/-- Locate the first `'='` of a line: `some (before, after)` when the line
contains one, with `before` the text left of the first `'='` and `after`
everything right of it. -/
def splitFirstEq : List Char → Option (List Char × List Char)
  | [] => none
  | c :: cs =>
    if c = '=' then some ([], cs)
    else
      match splitFirstEq cs with
      | some (a, b) => some (c :: a, b)
      | none => none

/-- Python's `line.split('=', 1)`: at most one split, at the first `'='`. -/
def pySplitOnceEq (s : String) : List String :=
  match splitFirstEq s.toList with
  | some (a, b) => [⟨a⟩, ⟨b⟩]
  | none => [s]

/-- The body of the extractor's per-entry branch (app.py 927-942): a
stripped key/value pair either contributes its cleaned value (when
educational and substantial) or nothing. -/
def handle_lang_entry (key value : String) : Option String :=
  if value = "" then none
  else if is_educational_content key value then
    let cleaned_text := clean_educational_text value
    if decide (10 < cleaned_text.length) && cleaned_text.toList.any Char.isAlpha &&
        decide (3 ≤ (pyWords cleaned_text).length) then
      some cleaned_text
    else none
  else none

/-- One line of the extractor's loop (app.py 922-945): blank lines,
comment lines and lines without `'='` are skipped; otherwise the line is
split at the first `'='` (the `except ValueError` arm is the final
wildcard match). -/
def process_lang_line (line0 : String) : Option String :=
  let line := pyStrip line0
  if line = "" || pyBeginsWith line "#" || !decide ('=' ∈ line.toList) then none
  else
    match pySplitOnceEq line with
    | [k, v] => handle_lang_entry (pyStrip k) (pyStrip v)
    | _ => none

/-- `extract_text_from_lang_file` (app.py 881-992) on the file's decoded
content.  `open(..., errors='ignore')` never raises `UnicodeDecodeError`,
so the latin-1 retry branch of the source is unreachable and the decoded
content is the single input here. -/
def extract_text_from_lang_file (content : String) : String :=
  if pyStrip content = "" then ""
  else
    let educational_text := (splitLinesStr content).filterMap process_lang_line
    pyStrip ⟨collapseRuns Char.isWhitespace ' ' false
      (joinSpace (educational_text.map String.toList))⟩

/-! ### Readability analyzer (`analyze_language_complexity`, app.py 994-1075)

The `textstat` metric library is an external collaborator; its per-metric
results are an explicit oracle parameter.  Everything the source derives
from them (rounding, banding, target age) is embedded. -/

/-- The `textstat` collaborator: one total function per metric used. -/
structure TextstatOracle where
  sentence_count : String → ℕ
  flesch_reading_ease : String → ℚ
  flesch_kincaid_grade : String → ℚ
  gunning_fog : String → ℚ
  smog_index : String → ℚ
  automated_readability_index : String → ℚ
  coleman_liau_index : String → ℚ
  linsear_write_formula : String → ℚ
  dale_chall_readability_score : String → ℚ
  avg_sentence_length : String → ℚ
  avg_syllables_per_word : String → ℚ
  difficult_words : String → ℕ
  syllable_count : String → ℕ

/-- The analyzer's result record (the `analysis` dict, app.py 1000-1070). -/
structure Analysis where
  word_count : ℕ
  char_count : ℕ
  sentence_count : ℕ
  paragraph_count : ℕ
  flesch_reading_ease : ℚ
  flesch_kincaid_grade : ℚ
  gunning_fog : ℚ
  smog_index : ℚ
  automated_readability_index : ℚ
  coleman_liau_index : ℚ
  linsear_write_formula : ℚ
  dale_chall_readability_score : ℚ
  avg_sentence_length : ℚ
  avg_syllables_per_word : ℚ
  difficult_words : ℕ
  syllable_count : ℕ
  reading_time_minutes : ℚ
  reading_level : String
  target_age : String
  ease_interpretation : String
deriving DecidableEq

/-- The precise-target-age computation (app.py 1030-1038): Python's
`int(round(grade + 5))` with the stated floor of 6 and caps of 18 and 22. -/
def calc_precise_age (grade_level : ℚ) : ℤ :=
  if grade_level ≤ 1 then 6
  else if grade_level ≤ 12 then pyRound (grade_level + 5)
  else if grade_level ≤ 16 then 18
  else 22

/-- The reading-level bands (app.py 1040-1050). -/
def reading_level_label (grade_level : ℚ) : String :=
  if grade_level ≤ 6 then "Elementary (Grades 1-6)"
  else if grade_level ≤ 8 then "Middle School (Grades 6-8)"
  else if grade_level ≤ 12 then "High School (Grades 9-12)"
  else if grade_level ≤ 16 then "College Level"
  else "Graduate Level"

/-- The Flesch-ease interpretation bands (app.py 1055-1070). -/
def ease_interpretation_label (ease_score : ℚ) : String :=
  if ease_score ≥ 90 then "Very Easy (5th grade)"
  else if ease_score ≥ 80 then "Easy (6th grade)"
  else if ease_score ≥ 70 then "Fairly Easy (7th grade)"
  else if ease_score ≥ 60 then "Standard (8th-9th grade)"
  else if ease_score ≥ 50 then "Fairly Difficult (10th-12th grade)"
  else if ease_score ≥ 30 then "Difficult (College level)"
  else "Very Difficult (Graduate level)"

/-- Split at every occurrence of the (nonempty) separator `pat`, keeping
empty pieces: Python's `text.split('\n\n')` (fuelled scanner). -/
def splitSubKeep (pat : List Char) : ℕ → List Char → List (List Char)
  | 0, s => [s]
  | _ + 1, [] => [[]]
  | fuel + 1, c :: rest =>
    if beginsWith pat (c :: rest) then
      [] :: splitSubKeep pat fuel (List.drop (pat.length - 1) rest)
    else
      match splitSubKeep pat fuel rest with
      | g :: gs => (c :: g) :: gs
      | [] => [[c]]

/-- `analyze_language_complexity` (app.py 994-1075).  Returns `none` for
the source's `None` (empty or shorter-than-10-characters input; the
`except` branch of the source only catches collaborator failures, which
the total oracle cannot raise). -/
def analyze_language_complexity (ts : TextstatOracle) (text : String) : Option Analysis :=
  if text = "" || (pyStrip text).length < 10 then none
  else
    let grade_level := pyRound2 (ts.flesch_kincaid_grade text)
    let ease_score := pyRound2 (ts.flesch_reading_ease text)
    some
      { word_count := (pyWords text).length
        char_count := text.length
        sentence_count := ts.sentence_count text
        paragraph_count :=
          ((splitSubKeep "\n\n".toList (text.toList.length + 1) text.toList).filter
            (fun p => stripChars p ≠ [])).length
        flesch_reading_ease := ease_score
        flesch_kincaid_grade := grade_level
        gunning_fog := pyRound2 (ts.gunning_fog text)
        smog_index := pyRound2 (ts.smog_index text)
        automated_readability_index := pyRound2 (ts.automated_readability_index text)
        coleman_liau_index := pyRound2 (ts.coleman_liau_index text)
        linsear_write_formula := pyRound2 (ts.linsear_write_formula text)
        dale_chall_readability_score := pyRound2 (ts.dale_chall_readability_score text)
        avg_sentence_length := pyRound2 (ts.avg_sentence_length text)
        avg_syllables_per_word := pyRound2 (ts.avg_syllables_per_word text)
        difficult_words := ts.difficult_words text
        syllable_count := ts.syllable_count text
        reading_time_minutes := pyRound1 (((pyWords text).length : ℚ) / 200)
        reading_level := reading_level_label grade_level
        target_age := toString (calc_precise_age grade_level) ++ " years"
        ease_interpretation := ease_interpretation_label ease_score }

/-! ### Spelling statistics (`perform_spell_check` core, app.py 1319-1367) -/

/-- `accuracy_percentage` (app.py 1322). -/
def accuracy_percentage (total_words misspelled_count : ℕ) : ℚ :=
  pyRound1 ((((total_words : ℚ) - (misspelled_count : ℚ)) / ((max total_words 1 : ℕ) : ℚ)) * 100)

/-- The quality band of `quality_assessment.level` (app.py 1361-1364). -/
def quality_level (accuracy : ℚ) : String :=
  if accuracy ≥ 95 then "Excellent"
  else if accuracy ≥ 90 then "Good"
  else if accuracy ≥ 80 then "Fair"
  else "Needs Improvement"

/-- `get_spell_quality_description` (app.py 1378-1387). -/
def get_spell_quality_description (accuracy : ℚ) (error_count : ℕ) : String :=
  if accuracy ≥ 95 then
    "Excellent spelling quality with only " ++ toString error_count ++
      " potential error(s). Content is professional and ready for educational use."
  else if accuracy ≥ 90 then
    "Good spelling quality with " ++ toString error_count ++
      " potential error(s). Minor review recommended before publication."
  else if accuracy ≥ 80 then
    "Fair spelling quality with " ++ toString error_count ++
      " potential error(s). Review and correction recommended for educational content."
  else
    "Spelling needs improvement with " ++ toString error_count ++
      " potential error(s). Comprehensive review required before educational use."

/-! ### Custom dictionary (app.py 1389-1455)

The persisted dictionary file is one word per line; `some lines` is the
file content, `none` means the file does not exist yet (in which case any
load first creates it with the default seed vocabulary). -/

/-- The seed vocabulary of `create_default_custom_dictionary`
(app.py 1407-1423), in source order; `"biome"` appears twice in the
source list and therefore twice in the created file. -/
def default_custom_dictionary_words : List String :=
  ["minecraft", "hotbar", "toolbar", "crafting", "redstone", "nether", "enderdragon",
   "creeper", "zombie", "skeleton", "enderman", "villager", "piglin", "blaze",
   "overworld", "stronghold", "dungeon", "mineshaft", "ravine", "bedrock",
   "obsidian", "netherite", "enchanting", "brewing", "potion", "respawn",
   "gamemode", "biome", "savanna", "taiga", "tundra", "mesa", "swampland",
   "pickaxe", "shovel", "hoe", "axe", "sword", "bow", "crossbow", "trident",
   "armor", "helmet", "chestplate", "leggings", "boots", "shield",
   "cobblestone", "sandstone", "blackstone", "deepslate", "diorite", "granite",
   "andesite",
   "spawner", "portal", "beacon", "hopper", "dispenser", "dropper", "piston",
   "minecart", "rail", "boat", "elytra", "firework", "rocket",
   "npc", "npcs", "codebuild", "codebuilder", "classroom", "worldbuilder",
   "immersive", "edu", "educational", "tutorial", "lesson", "activity",
   "sustainability", "biome", "ecosystem", "biodiversity"]

/-- `load_custom_dictionary` (app.py 1389-1403): read the file's non-blank
lines, stripped and lowercased; a missing file is created with the default
seed words (which are already stripped lowercase) and re-read. -/
def load_custom_dictionary : Option (List String) → List String
  | some lines => (lines.filter (fun l => pyStrip l ≠ "")).map (fun l => pyLower (pyStrip l))
  | none => default_custom_dictionary_words

/-- `add_word_to_custom_dictionary` (app.py 1434-1455): lowercase and
strip the word, reject empty/short words before touching the file, reject
duplicates after loading (loading a missing file materializes the default
file), otherwise append one line.  Returns the `(success, message)` pair
together with the file state afterwards. -/
def add_word_to_custom_dictionary (dictFile : Option (List String)) (word : String) :
    (Bool × String) × Option (List String) :=
  let w := pyStrip (pyLower word)
  if w = "" || w.length < 2 then
    ((false, "Word must be at least 2 characters long"), dictFile)
  else
    let fileLines := match dictFile with
      | some ls => ls
      | none => default_custom_dictionary_words
    let existing_words := load_custom_dictionary dictFile
    if existing_words.contains w then
      ((false, "Word already exists in custom dictionary"), some fileLines)
    else
      ((true, "Successfully added '" ++ w ++ "' to custom dictionary"),
        some (fileLines ++ [w]))

/-! ### File-content API path check (app.py 3188-3275)

Paths are component lists; `UserPath` is the user-supplied `file_path`
(absolute when the raw string starts with a separator).  `os.path.join`
discards the left part for an absolute right part; `os.path.abspath`
resolves `.` and `..` lexically; the endpoint's security check compares
the RENDERED absolute strings with `str.startswith`, exactly as the
source does. -/

/-- `listBeginsWith pat s`: `s` begins with the segment `pat`. -/
def listBeginsWith {α : Type} [DecidableEq α] : List α → List α → Bool
  | [], _ => true
  | _ :: _, [] => false
  | a :: as, b :: bs => if a = b then listBeginsWith as bs else false

/-- A user-supplied `file_path` request argument, decomposed into
separator-delimited components. -/
structure UserPath where
  isAbs : Bool
  comps : List String
deriving DecidableEq

/-- `os.path.join(root, p)` for an absolute `root`. -/
def joinPath (root : List String) (p : UserPath) : List String :=
  if p.isAbs then p.comps else root ++ p.comps

/-- The lexical `.`/`..` resolution `os.path.abspath` performs on an
already-absolute path (`..` at the root stays at the root). -/
def normalizePath (comps : List String) : List String :=
  comps.foldl
    (fun acc c => if c = "." then acc else if c = ".." then acc.dropLast else acc ++ [c]) []

/-- Render an absolute component list the way `os.path.abspath` returns
it: a leading separator before every component. -/
def renderAbs (comps : List String) : List Char :=
  comps.foldl (fun acc c => acc ++ '/' :: c.toList) []

/-- `os.path.abspath(os.path.join(unpacked_folder, file_path))`. -/
def resolvedPath (root : List String) (p : UserPath) : List String :=
  normalizePath (joinPath root p)

/-- The endpoints' security check (app.py 3206 and 3256):
`os.path.abspath(full_file_path).startswith(os.path.abspath(unpacked_folder))`. -/
def security_check (root : List String) (p : UserPath) : Bool :=
  beginsWith (renderAbs (normalizePath root)) (renderAbs (resolvedPath root p))

/-- `p` actually resolves to the root or below it (component-wise). -/
def withinRoot (root : List String) (p : UserPath) : Bool :=
  listBeginsWith (normalizePath root) (resolvedPath root p)

/-- `api_get_file_content` (app.py 3188-3230), after the world lookup:
reject on the security check, else read the resolved file from the
filesystem (an association list of absolute component paths). -/
def api_get_file_content (world_files : List (List String × String))
    (unpacked_folder : List String) (file_path : UserPath) : Except String String :=
  if !security_check unpacked_folder file_path then .error "Invalid file path"
  else
    match world_files.find? (fun e => e.1 = resolvedPath unpacked_folder file_path) with
    | none => .error "File not found"
    | some e => .ok e.2

/-- `api_save_file_content` (app.py 3232-3275), after the world lookup:
reject on the security check, else write `content` at the resolved path
(the `.backup` copy is an additional write at a sibling path and is not
modelled). -/
def api_save_file_content (world_files : List (List String × String))
    (unpacked_folder : List String) (file_path : UserPath) (content : String) :
    Except String (List (List String × String)) :=
  if !security_check unpacked_folder file_path then .error "Invalid file path"
  else
    .ok (world_files.filter (fun e => e.1 ≠ resolvedPath unpacked_folder file_path) ++
      [(resolvedPath unpacked_folder file_path, content)])

/-! ### Pipeline orchestration (app.py 1077-1191 and 1192-1376)

Both pipelines are split at their `match`/`if` joints into named stages so
that the theorems can follow the source's control flow; the stages
composed are exactly the source functions.  Each pipeline also returns
the list of file-processing actions it performed, in order, so that
"extraction was never attempted" is expressible. -/

/-- The file-processing actions a pipeline run performs. -/
inductive Event where
  | readRaw (path : String)
  | extractText (path : String)
  | analyzeText
  | spellCheckRun
deriving DecidableEq

/-- CPython's `repr` of a float that carries at most 2 decimal digits
(the only floats interpolated into messages here are `round(_, 2)`
results): minimal digits, but always at least one decimal place. -/
def formatPyKb (q : ℚ) : String :=
  let n : ℤ := ⌊q * 100⌋
  let ip := n / 100
  let fr := (n % 100).toNat
  if fr = 0 then toString ip ++ ".0"
  else if fr % 10 = 0 then toString ip ++ "." ++ toString (fr / 10)
  else if fr < 10 then toString ip ++ ".0" ++ toString fr
  else toString ip ++ "." ++ toString fr

/-- `language_summary` (app.py 1102 / 1227). -/
def language_files_summary (nEnglish nOther : ℕ) : String :=
  "Found " ++ toString nEnglish ++ " English file(s) and " ++ toString nOther ++
    " other language file(s)."

/-- The analysis pipeline's no-files failure string (app.py 1084). -/
def analysisNoLangMessage : String :=
  "No language files (.lang) were found in this unpacked world. Language analysis requires at least one .lang file to be present."

/-- The analysis pipeline's too-small failure string (app.py 1103). -/
def analysisTooSmallMessage (file : FileInfo) (nEnglish nOther : ℕ) : String :=
  "The selected language file '" ++ file.name ++ "' (" ++ file.language_code ++
    ") is too small (" ++ formatPyKb file.size_kb ++
    " KB) to provide meaningful analysis. " ++ language_files_summary nEnglish nOther ++
    " Language analysis requires files with substantial text content."

/-- The analysis pipeline's empty-extraction failure string (app.py 1121). -/
def analysisNoContentMessage (name : String) (total_entries : ℕ) : String :=
  "Could not extract educational content from '" ++ name ++
    "'. The file may contain only technical/system content or be corrupted. Found " ++
    toString total_entries ++
    " total entries, but none appear to contain user-facing educational content."

/-- The analysis pipeline's under-50-characters failure string (app.py 1124). -/
def analysisFewCharsMessage (name : String) (chars total_entries : ℕ) : String :=
  "Insufficient educational content found in '" ++ name ++ "' (only " ++
    toString chars ++ " characters of user-facing text). Out of " ++
    toString total_entries ++
    " total entries, very few contained educational content suitable for analysis."

/-- The analysis pipeline's under-15-words failure string (app.py 1127). -/
def analysisFewWordsMessage (name : String) (words : ℕ) : String :=
  "Insufficient educational content found in '" ++ name ++ "' (only " ++
    toString words ++
    " words of user-facing text). Language analysis requires at least 15 words of educational content for reliable metrics."

/-- The analysis pipeline's analyzer-returned-null failure string (app.py 1132). -/
def analysisFailedMessage (name : String) : String :=
  "Unable to analyze text complexity from the educational content in '" ++ name ++
    "'. The filtered text content may not be suitable for readability analysis."

/-- The spelling pipeline's no-files failure string (app.py 1199). -/
def spellNoLangMessage : String :=
  "No language files (.lang) were found in this unpacked world. Spell checking requires at least one .lang file to be present."

/-- The spelling pipeline's too-small failure string (app.py 1228). -/
def spellTooSmallMessage (file : FileInfo) (nEnglish nOther : ℕ) : String :=
  "The selected language file '" ++ file.name ++ "' (" ++ file.language_code ++
    ") is too small (" ++ formatPyKb file.size_kb ++
    " KB) to provide meaningful spell checking. " ++ language_files_summary nEnglish nOther ++
    " Spell checking requires files with substantial text content."

/-- The spelling pipeline's empty-extraction failure string (app.py 1237). -/
def spellNoContentMessage (name : String) : String :=
  "Could not extract educational content from '" ++ name ++
    "'. The file may contain only technical/system content or be corrupted."

/-- The spelling pipeline's under-50-characters failure string (app.py 1240). -/
def spellFewCharsMessage (name : String) (chars : ℕ) : String :=
  "Insufficient educational content found in '" ++ name ++ "' (only " ++
    toString chars ++
    " characters of user-facing text). Spell checking requires at least 50 characters of educational content."

/-- The spelling pipeline's under-15-words failure string (app.py 1243). -/
def spellFewWordsMessage (name : String) (words : ℕ) : String :=
  "Insufficient educational content found in '" ++ name ++ "' (only " ++
    toString words ++
    " words of user-facing text). Spell checking requires at least 15 words of educational content."

/-- The spelling pipeline's empty-token-list failure string (app.py 1263). -/
def spellNoWordsMessage (textLength : ℕ) : String :=
  "No words found in the educational content after cleaning. Original text length: " ++
    toString textLength

/-- The spelling pipeline's all-tokens-filtered failure string (app.py 1269). -/
def spellNoSuitableMessage : String :=
  "No suitable words found for spell checking after filtering short words and numbers."

/-- The spelling pipeline's no-unique-words failure string (app.py 1281). -/
def spellNoUniqueMessage : String :=
  "No unique words found for spell checking."

/-- Candidate selection shared by both pipelines (app.py 1091-1098 /
1210-1223): the first largest English-classified file, else the first
largest file overall. -/
def selected_candidate (f : FileInfo) (fs : List FileInfo) : FileInfo :=
  match (f :: fs).filter (fun i => i.is_english) with
  | e :: es => pyMaxBySize (fun i => i.size_bytes) e es
  | [] => pyMaxBySize (fun i => i.size_bytes) f fs

/-- The raw-entry count of the analysis pipeline (app.py 1110-1112):
non-blank, non-comment lines containing `'='` (the `'='` test is on the
unstripped line, as in the source). -/
def countRawEntries (content : String) : ℕ :=
  ((splitLinesStr content).filter
    (fun l => pyStrip l ≠ "" && !pyBeginsWith (pyStrip l) "#" &&
      decide ('=' ∈ l.toList))).length

/-- The `analyzed_file` provenance sub-record (app.py 1139-1154). -/
structure AnalyzedFile where
  name : String
  path : String
  size_kb : ℚ
  language_code : String
  is_english : Bool
  total_files_found : ℕ
  english_files_found : ℕ
  non_english_files_found : ℕ
  total_entries : ℕ
  educational_entries_estimated : ℕ
  content_filtered_percentage : ℚ
  extracted_text_words : ℕ
  extracted_text_chars : ℕ
  analysis_note : String
deriving DecidableEq

/-- The analysis pipeline's success payload (the `filtering_info`
sub-dict, a record of fixed explanatory strings, is not modelled). -/
structure AnalysisReport where
  analysis : Analysis
  analyzed_file : AnalyzedFile
  sample_text : String
  full_text_length : ℕ
deriving DecidableEq

/-- `perform_language_analysis` after a nonempty locator result
(app.py 1086-1183). -/
def analysis_with_files (ts : TextstatOracle) (f : FileInfo) (fs : List FileInfo) :
    Except String AnalysisReport × List Event :=
  let lang_files := f :: fs
  let english_files := lang_files.filter (fun i => i.is_english)
  let non_english_files := lang_files.filter (fun i => !i.is_english)
  let largest_file := selected_candidate f fs
  let analysis_note :=
    if english_files.isEmpty then
      "⚠️ No English language files found. Analyzing " ++ largest_file.name ++ " (" ++
        largest_file.language_code ++
        ") - results may not be accurate for English readability assessment."
    else
      "Analyzing English language file: " ++ largest_file.name ++ " (" ++
        largest_file.language_code ++ ")"
  if largest_file.size_bytes < 100 then
    (.error (analysisTooSmallMessage largest_file english_files.length
      non_english_files.length), [])
  else
    let total_entries := countRawEntries largest_file.content
    let text := extract_text_from_lang_file largest_file.content
    let tr : List Event :=
      [Event.readRaw largest_file.relative_path, Event.extractText largest_file.relative_path]
    if text = "" then
      (.error (analysisNoContentMessage largest_file.name total_entries), tr)
    else if (pyStrip text).length < 50 then
      (.error (analysisFewCharsMessage largest_file.name (pyStrip text).length
        total_entries), tr)
    else if (pyWords text).length < 15 then
      (.error (analysisFewWordsMessage largest_file.name (pyWords text).length), tr)
    else
      match analyze_language_complexity ts text with
      | none => (.error (analysisFailedMessage largest_file.name), tr ++ [Event.analyzeText])
      | some analysis =>
        let educational_entries := ((pyWords text).filter (fun w => 2 < w.length)).length / 8
        let filtered_percentage :=
          if 0 < total_entries then
            pyRound1 (((educational_entries : ℚ) / ((max total_entries 1 : ℕ) : ℚ)) * 100)
          else 0
        (.ok
          { analysis := analysis
            analyzed_file :=
              { name := largest_file.name
                path := largest_file.relative_path
                size_kb := largest_file.size_kb
                language_code := largest_file.language_code
                is_english := largest_file.is_english
                total_files_found := lang_files.length
                english_files_found := english_files.length
                non_english_files_found := non_english_files.length
                total_entries := total_entries
                educational_entries_estimated := educational_entries
                content_filtered_percentage := filtered_percentage
                extracted_text_words := (pyWords text).length
                extracted_text_chars := text.length
                analysis_note := analysis_note }
            sample_text :=
              if 500 < text.length then (⟨text.toList.take 500⟩ : String) ++ "..." else text
            full_text_length := text.length }, tr ++ [Event.analyzeText])

/-- `perform_language_analysis` (app.py 1077-1191). -/
def perform_language_analysis (root : Option (List DiskFile)) (ts : TextstatOracle) :
    Except String AnalysisReport × List Event :=
  match find_language_files root with
  | [] => (.error analysisNoLangMessage, [])
  | f :: fs => analysis_with_files ts f fs

/-- The `pyspellchecker` collaborator: base-dictionary membership and the
correction-candidate generator (`none` models a generation failure, which
the source degrades to an empty suggestion list). -/
structure SpellOracle where
  known : String → Bool
  candidates : String → Option (List String)

/-- One misspelled-word entry (app.py 1308-1312). -/
structure SpellResultEntry where
  word : String
  suggestions : List String
  context_usage : ℕ
deriving DecidableEq

/-- The spelling `analyzed_file` provenance sub-record (app.py 1334-1344). -/
structure SpellAnalyzedFile where
  name : String
  path : String
  size_kb : ℚ
  language_code : String
  is_english : Bool
  total_files_found : ℕ
  english_files_found : ℕ
  non_english_files_found : ℕ
  spell_check_note : String
deriving DecidableEq

/-- The spelling `statistics` sub-record (app.py 1345-1354). -/
structure SpellStats where
  total_unique_words : ℕ
  misspelled_words : ℕ
  accuracy_percentage : ℚ
  extracted_text_length : ℕ
  common_errors_count : ℕ
  unique_errors_count : ℕ
  custom_dictionary_words : ℕ
  custom_words_used_count : ℕ
deriving DecidableEq

/-- The spelling `errors` partition (app.py 1355-1359). -/
structure SpellErrors where
  common_errors : List SpellResultEntry
  unique_errors : List SpellResultEntry
  all_errors : List SpellResultEntry
deriving DecidableEq

/-- The spelling `quality_assessment` sub-record (app.py 1360-1366). -/
structure QualityAssessment where
  level : String
  description : String
deriving DecidableEq

/-- The spelling pipeline's success payload. -/
structure SpellReport where
  analyzed_file : SpellAnalyzedFile
  statistics : SpellStats
  errors : SpellErrors
  quality_assessment : QualityAssessment
deriving DecidableEq

/-- A `\w` word character (ASCII fragment of the source's regex). -/
def isWordChar (c : Char) : Bool := c.isAlphanum || c = '_'

/-- Case-insensitive de-duplication preserving first-seen order
(app.py 1272-1278). -/
def dedupCaseIns (ws : List String) : List String :=
  (ws.foldl
    (fun acc w =>
      if acc.2.contains (pyLower w) then acc else (acc.1 ++ [w], pyLower w :: acc.2))
    (([], []) : List String × List String)).1

/-- `perform_spell_check` after a nonempty locator result
(app.py 1205-1369).  `spell.unknown`'s unordered result set is modelled
as the sublist of the unique words that fail the (base ∪ custom)
dictionary test; its cardinality and membership agree with the source's
set of lowercased unknowns because the unique words are already
case-insensitively distinct. -/
def spell_with_files (dictFile : Option (List String)) (sp : SpellOracle)
    (f : FileInfo) (fs : List FileInfo) : Except String SpellReport × List Event :=
  let lang_files := f :: fs
  let english_files := lang_files.filter (fun i => i.is_english)
  let non_english_files := lang_files.filter (fun i => !i.is_english)
  let largest_file := selected_candidate f fs
  let spell_check_note :=
    if english_files.isEmpty then
      "⚠️ No English language files found. Spell checking " ++ largest_file.name ++ " (" ++
        largest_file.language_code ++ ") - results may include non-English words as errors."
    else
      "Spell checking English language file: " ++ largest_file.name ++ " (" ++
        largest_file.language_code ++ ")"
  if largest_file.size_bytes < 100 then
    (.error (spellTooSmallMessage largest_file english_files.length
      non_english_files.length), [])
  else
    let text := extract_text_from_lang_file largest_file.content
    let tr : List Event := [Event.extractText largest_file.relative_path]
    if text = "" then (.error (spellNoContentMessage largest_file.name), tr)
    else if (pyStrip text).length < 50 then
      (.error (spellFewCharsMessage largest_file.name (pyStrip text).length), tr)
    else if (pyWords text).length < 15 then
      (.error (spellFewWordsMessage largest_file.name (pyWords text).length), tr)
    else
      let custom_dict := load_custom_dictionary dictFile
      let cleaned_text : String :=
        ⟨text.toList.map
          (fun c => if isWordChar c || c.isWhitespace || c = '\'' || c = '-' then c else ' ')⟩
      let words0 := pyWords cleaned_text
      if words0.isEmpty then (.error (spellNoWordsMessage text.length), tr)
      else
        let words := words0.filter (fun w => 2 < w.length && !pyIsDigit w)
        if words.isEmpty then (.error spellNoSuitableMessage, tr)
        else
          let unique_words := dedupCaseIns words
          if unique_words.isEmpty then (.error spellNoUniqueMessage, tr)
          else
            let misspelled := unique_words.filter
              (fun w => !(sp.known (pyLower w) || custom_dict.contains (pyLower w)))
            let spell_results := stableSortDescBy (fun r => r.context_usage)
              (misspelled.map (fun w =>
                { word := w
                  suggestions := match sp.candidates w with | none => [] | some l => l.take 5
                  context_usage := (words.filter (fun x => pyLower x = pyLower w)).length }))
            let total_words := unique_words.length
            let misspelled_count := misspelled.length
            let accuracy := accuracy_percentage total_words misspelled_count
            let common_errors := spell_results.filter (fun r => 1 < r.context_usage)
            let unique_errors := spell_results.filter (fun r => r.context_usage = 1)
            let custom_words_used := unique_words.filter
              (fun w => custom_dict.contains (pyLower w))
            (.ok
              { analyzed_file :=
                  { name := largest_file.name
                    path := largest_file.relative_path
                    size_kb := largest_file.size_kb
                    language_code := largest_file.language_code
                    is_english := largest_file.is_english
                    total_files_found := lang_files.length
                    english_files_found := english_files.length
                    non_english_files_found := non_english_files.length
                    spell_check_note := spell_check_note }
                statistics :=
                  { total_unique_words := total_words
                    misspelled_words := misspelled_count
                    accuracy_percentage := accuracy
                    extracted_text_length := text.length
                    common_errors_count := common_errors.length
                    unique_errors_count := unique_errors.length
                    custom_dictionary_words := custom_dict.length
                    custom_words_used_count := custom_words_used.length }
                errors :=
                  { common_errors := common_errors
                    unique_errors := unique_errors
                    all_errors := spell_results }
                quality_assessment :=
                  { level := quality_level accuracy
                    description := get_spell_quality_description accuracy misspelled_count } },
              tr ++ [Event.spellCheckRun])

/-- `perform_spell_check` (app.py 1192-1376).  The source's redundant
`lang_files is None` / `isinstance` re-checks collapse into the single
empty-list match. -/
def perform_spell_check (root : Option (List DiskFile)) (dictFile : Option (List String))
    (sp : SpellOracle) : Except String SpellReport × List Event :=
  match find_language_files root with
  | [] => (.error spellNoLangMessage, [])
  | f :: fs => spell_with_files dictFile sp f fs

/-! ### Concrete fixtures and trivial oracles used by the theorems -/

/-- The locale-ranking example files of the specification: `xx_xx.lang`
(500 bytes), `en_us.lang` (200 bytes), `en_gb.lang` (800 bytes). -/
def c2ExampleFiles : List DiskFile :=
  [⟨"xx_xx.lang", "texts/xx_xx.lang", 500, ""⟩,
   ⟨"en_us.lang", "texts/en_us.lang", 200, ""⟩,
   ⟨"en_gb.lang", "texts/en_gb.lang", 800, ""⟩]

/-- A directory holding a technical helper file whose name contains the
`en_` indicator, next to a larger non-English file. -/
def c9ExampleFiles : List DiskFile :=
  [⟨"gen_utils.lang", "texts/gen_utils.lang", 10, ""⟩,
   ⟨"xx_xx.lang", "texts/xx_xx.lang", 999, ""⟩]

/-- A metric oracle returning 0 for every metric (the pipelines under
test fail before consulting it). -/
def tsZero : TextstatOracle :=
  ⟨fun _ => 0, fun _ => 0, fun _ => 0, fun _ => 0, fun _ => 0, fun _ => 0, fun _ => 0,
   fun _ => 0, fun _ => 0, fun _ => 0, fun _ => 0, fun _ => 0, fun _ => 0⟩

/-- A spell-check oracle that knows every word and suggests nothing. -/
def spZero : SpellOracle := ⟨fun _ => true, fun _ => none⟩

/-- A single English-classified file of 42 bytes (below the 100-byte
analysis threshold). -/
def smallDisk : DiskFile := ⟨"en_us.lang", "texts/en_us.lang", 42, "npc.hi=Hello"⟩

/-- The unpacked root holding only `smallDisk`. -/
def smallRoot : Option (List DiskFile) := some [smallDisk]

/-- The locator record for `smallDisk`. -/
def smallInfo : FileInfo := mkFileInfo smallDisk

/-! ### Ordering facts about the stable descending sort -/

lemma mem_insertDescBy {α : Type} (key : α → ℕ) (x a : α) (l : List α) :
    a ∈ insertDescBy key x l ↔ a = x ∨ a ∈ l := by
  induction l with
  | nil => simp [insertDescBy]
  | cons y ys ih =>
    simp only [insertDescBy]
    split
    · simp
    · simp only [List.mem_cons, ih]
      tauto

lemma pairwise_insertDescBy {α : Type} (key : α → ℕ) (x : α) (l : List α)
    (h : List.Pairwise (fun a b => key b ≤ key a) l) :
    List.Pairwise (fun a b => key b ≤ key a) (insertDescBy key x l) := by
  induction l with
  | nil => simp [insertDescBy]
  | cons y ys ih =>
    rcases List.pairwise_cons.1 h with ⟨hy, hys⟩
    simp only [insertDescBy]
    split
    · rename_i hxy
      refine List.pairwise_cons.2 ⟨?_, h⟩
      intro b hb
      rcases List.mem_cons.1 hb with rfl | hb
      · exact hxy
      · exact le_trans (hy b hb) hxy
    · rename_i hxy
      refine List.pairwise_cons.2 ⟨?_, ih hys⟩
      intro b hb
      rcases (mem_insertDescBy key x b ys).1 hb with rfl | hb
      · omega
      · exact hy b hb

lemma pairwise_stableSortDescBy {α : Type} (key : α → ℕ) (l : List α) :
    List.Pairwise (fun a b => key b ≤ key a) (stableSortDescBy key l) := by
  induction l with
  | nil => simp [stableSortDescBy]
  | cons x xs ih =>
    simp only [stableSortDescBy, List.foldr_cons] at ih ⊢
    exact pairwise_insertDescBy key x _ ih

lemma mem_stableSortDescBy {α : Type} (key : α → ℕ) (a : α) (l : List α) :
    a ∈ stableSortDescBy key l ↔ a ∈ l := by
  induction l with
  | nil => simp [stableSortDescBy]
  | cons x xs ih =>
    simp only [stableSortDescBy, List.foldr_cons] at ih ⊢
    rw [mem_insertDescBy, ih, List.mem_cons]

/-- The ordering the locator's output respects: primary-locale (English)
files never follow non-primary files, and within a same-classification
pair the later file is no larger. -/
def locatorOrder (a b : FileInfo) : Prop :=
  (b.is_english = true → a.is_english = true) ∧
    (a.is_english = b.is_english → b.size_bytes ≤ a.size_bytes)

lemma pairwise_locatorOrder_of_flag (bflag : Bool) (l : List FileInfo)
    (hall : ∀ x ∈ l, x.is_english = bflag)
    (hs : List.Pairwise (fun a b => b.size_bytes ≤ a.size_bytes) l) :
    List.Pairwise locatorOrder l := by
  refine hs.imp_of_mem ?_
  intro a b ha hb hr
  refine ⟨fun hbe => ?_, fun _ => hr⟩
  rw [hall a ha, ← hall b hb]
  exact hbe

/-! ### The claims -/

/-- C2.  For every root, the locator orders all primary-locale (English)
files before all non-primary files and each group by descending size;
the output holds exactly the discovered `.lang` files; and on the
specification's example (`xx_xx.lang` 500 B, `en_us.lang` 200 B,
`en_gb.lang` 800 B) the order is `en_gb.lang, en_us.lang, xx_xx.lang`. -/
theorem c2_locator_ordering :
    (∀ root, List.Pairwise locatorOrder (find_language_files root)) ∧
    (∀ files i, i ∈ find_language_files (some files) ↔
      i ∈ (files.filter (fun f => pyEndsWith (pyLower f.name) ".lang")).map mkFileInfo) ∧
    (find_language_files (some c2ExampleFiles)).map (fun i => i.name) =
      ["en_gb.lang", "en_us.lang", "xx_xx.lang"] := by
  refine ⟨?_, ?_, by decide⟩
  · intro root
    cases root with
    | none => simp [find_language_files]
    | some files =>
      simp only [find_language_files]
      refine List.pairwise_append.2 ⟨?_, ?_, ?_⟩
      · refine pairwise_locatorOrder_of_flag true _ ?_ (pairwise_stableSortDescBy _ _)
        intro x hx
        have hx' := (mem_stableSortDescBy _ x _).1 hx
        exact (List.mem_filter.1 hx').2
      · refine pairwise_locatorOrder_of_flag false _ ?_ (pairwise_stableSortDescBy _ _)
        intro x hx
        have hx' := (mem_stableSortDescBy _ x _).1 hx
        have := (List.mem_filter.1 hx').2
        simpa using this
      · intro a ha b hb
        have ha' := (List.mem_filter.1 ((mem_stableSortDescBy _ a _).1 ha)).2
        have hb' := (List.mem_filter.1 ((mem_stableSortDescBy _ b _).1 hb)).2
        have hbe : b.is_english = false := by simpa using hb'
        refine ⟨fun h => ?_, fun h => ?_⟩
        · rw [hbe] at h; cases h
        · rw [ha', hbe] at h; cases h
  · intro files i
    simp only [find_language_files, List.mem_append, mem_stableSortDescBy,
      List.mem_filter]
    constructor
    · rintro (⟨hi, _⟩ | ⟨hi, _⟩) <;> exact hi
    · intro hi
      by_cases he : i.is_english
      · exact Or.inl ⟨hi, he⟩
      · exact Or.inr ⟨hi, by simpa using he⟩

/-- C4.  The educational-content classifier accepts the NPC greeting
example and rejects the technical item-identifier example. -/
theorem c4_classifier_examples :
    is_educational_content "npc.greeting.01" "Hello, welcome to the sustainability lab!" = true ∧
    is_educational_content "item.diamond_pickaxe.name" "minecraft:diamond_pickaxe" = false := by
  exact ⟨by decide, by decide⟩

/-- C9.  Any filename whose lowercased form contains one of the four
indicator substrings is classified as English, with no token boundaries:
`gen_utils.lang` is English-classified and the locator sorts it into the
leading primary group even next to a larger non-English file. -/
theorem c9_substring_classification :
    (∀ filename : String,
      (["en_", "english", "_us", "_en"].any
        (fun indicator => strContains (pyLower filename) indicator)) = true →
      is_english_lang_file filename = true) ∧
    is_english_lang_file "gen_utils.lang" = true ∧
    (find_language_files (some c9ExampleFiles)).map (fun i => (i.name, i.is_english)) =
      [("gen_utils.lang", true), ("xx_xx.lang", false)] := by
  refine ⟨?_, by decide, by decide⟩
  intro filename h
  simp only [is_english_lang_file]
  split
  · rfl
  · exact h

/-- Witness for C9 at the concrete filename `gen_utils.lang`. -/
theorem c9_substring_classification_witness :
    is_english_lang_file "gen_utils.lang" = true :=
  c9_substring_classification.1 "gen_utils.lang" (by decide)

/-- The target-age map exactly as the specification words it (general
case "round(g + 5)" taken as Python's `round`, which the source's
`int(round(...))` invokes): `g ≤ 1 → 6`; `1 < g ≤ 12 → round(g+5)`;
`12 < g ≤ 16 → 18`; `g > 16 → 22`. -/
def spec_target_age (g : ℚ) : ℤ :=
  if g ≤ 1 then 6
  else if 1 < g ∧ g ≤ 12 then pyRound (g + 5)
  else if 12 < g ∧ g ≤ 16 then 18
  else 22

/-- C5.  The source's target-age computation agrees with the
specification's piecewise description everywhere, and in particular maps
grade 0.5 to age 6, 9.0 to 14, 14.0 to 18 and 20.0 to 22. -/
theorem c5_target_age :
    (∀ g : ℚ, calc_precise_age g = spec_target_age g) ∧
    calc_precise_age (1 / 2) = 6 ∧ calc_precise_age 9 = 14 ∧
    calc_precise_age 14 = 18 ∧ calc_precise_age 20 = 22 := by
  refine ⟨?_, by norm_num [calc_precise_age], by norm_num [calc_precise_age, pyRound, round_eq],
    by norm_num [calc_precise_age], by norm_num [calc_precise_age]⟩
  intro g
  unfold calc_precise_age spec_target_age
  by_cases h1 : g ≤ 1
  · simp [h1]
  · have h1' : 1 < g := not_le.1 h1
    by_cases h2 : g ≤ 12
    · simp [h1, h1', h2]
    · by_cases h3 : g ≤ 16
      · simp [h1, h2, h3, not_le.1 h2]
      · simp [h1, h2, h3]

/-- The accuracy formula exactly as the specification words it:
`round(100 * (totalUniqueWords - misspelledCount) / max(totalUniqueWords, 1), 1)`. -/
def spec_accuracy (totalUniqueWords misspelledCount : ℕ) : ℚ :=
  pyRound1 (100 * ((totalUniqueWords : ℚ) - (misspelledCount : ℚ)) /
    ((max totalUniqueWords 1 : ℕ) : ℚ))

/-- C6.  The source's accuracy percentage agrees with the
specification's formula for all counts, the quality level follows the
stated bands, and 100 unique tokens with 5 misspelled yield 95.0 and
"Excellent". -/
theorem c6_accuracy_and_quality :
    (∀ total misspelled : ℕ,
      accuracy_percentage total misspelled = spec_accuracy total misspelled) ∧
    (∀ acc : ℚ,
      (95 ≤ acc → quality_level acc = "Excellent") ∧
      (90 ≤ acc → acc < 95 → quality_level acc = "Good") ∧
      (80 ≤ acc → acc < 90 → quality_level acc = "Fair") ∧
      (acc < 80 → quality_level acc = "Needs Improvement")) ∧
    accuracy_percentage 100 5 = 95 ∧
    quality_level (accuracy_percentage 100 5) = "Excellent" := by
  have h3 : accuracy_percentage 100 5 = 95 := by
    norm_num [accuracy_percentage, pyRound1, pyRound, round_eq]
  refine ⟨?_, ?_, h3, by rw [h3]; unfold quality_level; rw [if_pos (le_refl (95 : ℚ))]⟩
  · intro total misspelled
    unfold accuracy_percentage spec_accuracy
    congr 1
    ring
  · intro acc
    refine ⟨fun h95 => ?_, fun h90 h95 => ?_, fun h80 h90 => ?_, fun h80 => ?_⟩
    · unfold quality_level
      rw [if_pos h95]
    · unfold quality_level
      rw [if_neg (not_le.2 h95), if_pos h90]
    · unfold quality_level
      rw [if_neg (not_le.2 (by linarith)), if_neg (not_le.2 h90), if_pos h80]
    · unfold quality_level
      rw [if_neg (not_le.2 (by linarith)), if_neg (not_le.2 (by linarith)),
        if_neg (not_le.2 h80)]

/-- Witness for C6's banded quality levels at concrete accuracies. -/
theorem c6_accuracy_and_quality_witness :
    quality_level 96 = "Excellent" ∧ quality_level 92 = "Good" ∧
    quality_level 85 = "Fair" ∧ quality_level 70 = "Needs Improvement" :=
  ⟨(c6_accuracy_and_quality.2.1 96).1 (by norm_num),
   (c6_accuracy_and_quality.2.1 92).2.1 (by norm_num) (by norm_num),
   (c6_accuracy_and_quality.2.1 85).2.2.1 (by norm_num) (by norm_num),
   (c6_accuracy_and_quality.2.1 70).2.2.2 (by norm_num)⟩

/-- C7.  A duplicate word (lowercased and stripped, of legal length)
is rejected with the exact "already exists" message and the loadable
word list is unchanged; a word shorter than 2 characters after
lowercasing/stripping is rejected with the file completely untouched. -/
theorem c7_add_word_rejections :
    ∀ (dictFile : Option (List String)) (word : String),
      (2 ≤ (pyStrip (pyLower word)).length →
        (pyStrip (pyLower word)) ∈ load_custom_dictionary dictFile →
        (add_word_to_custom_dictionary dictFile word).1 =
          (false, "Word already exists in custom dictionary") ∧
        load_custom_dictionary (add_word_to_custom_dictionary dictFile word).2 =
          load_custom_dictionary dictFile) ∧
      ((pyStrip (pyLower word)).length < 2 →
        (add_word_to_custom_dictionary dictFile word).1.1 = false ∧
        (add_word_to_custom_dictionary dictFile word).2 = dictFile) := by
  intro dictFile word
  constructor
  · intro hlen hmem
    have hne : pyStrip (pyLower word) ≠ "" := by
      intro h
      rw [h] at hlen
      simp at hlen
    have hcond : ¬((decide (pyStrip (pyLower word) = "") ||
        decide ((pyStrip (pyLower word)).length < 2)) = true) := by
      simp [hne]
      omega
    have hcontains : (load_custom_dictionary dictFile).contains (pyStrip (pyLower word)) =
        true := List.elem_eq_true_of_mem hmem
    cases dictFile with
    | none =>
      unfold add_word_to_custom_dictionary
      rw [if_neg hcond, if_pos hcontains]
      exact ⟨rfl, by decide⟩
    | some ls =>
      unfold add_word_to_custom_dictionary
      rw [if_neg hcond, if_pos hcontains]
      exact ⟨rfl, rfl⟩
  · intro hlt
    have hcond : (decide (pyStrip (pyLower word) = "") ||
        decide ((pyStrip (pyLower word)).length < 2)) = true := by
      simp [hlt]
    unfold add_word_to_custom_dictionary
    rw [if_pos hcond]
    exact ⟨rfl, rfl⟩

/-- Witness for C7: adding the already-present `"  MineCraft  "` to a
dictionary file holding `minecraft` is rejected leaving the word list
unchanged, and adding the 1-character `"a"` leaves the file untouched. -/
theorem c7_add_word_rejections_witness :
    (add_word_to_custom_dictionary (some ["minecraft"]) "  MineCraft  ").1 =
      (false, "Word already exists in custom dictionary") ∧
    load_custom_dictionary
        (add_word_to_custom_dictionary (some ["minecraft"]) "  MineCraft  ").2 =
      load_custom_dictionary (some ["minecraft"]) ∧
    (add_word_to_custom_dictionary (some ["minecraft"]) "a").1.1 = false ∧
    (add_word_to_custom_dictionary (some ["minecraft"]) "a").2 = some ["minecraft"] := by
  have h1 := (c7_add_word_rejections (some ["minecraft"]) "  MineCraft  ").1
    (by decide) (by decide)
  have h2 := (c7_add_word_rejections (some ["minecraft"]) "a").2 (by decide)
  exact ⟨h1.1, h1.2, h2.1, h2.2⟩

lemma splitFirstEq_spec (cs : List Char) (h : '=' ∈ cs) :
    ∃ a b, splitFirstEq cs = some (a, b) ∧ cs = a ++ '=' :: b ∧ '=' ∉ a := by
  induction cs with
  | nil => cases h
  | cons c cs ih =>
    by_cases hc : c = '='
    · subst hc
      exact ⟨[], cs, by simp [splitFirstEq], rfl, by simp⟩
    · have h' : '=' ∈ cs := by
        rcases List.mem_cons.1 h with h | h
        · exact absurd h.symm hc
        · exact h
      obtain ⟨a, b, hsp, hcat, hna⟩ := ih h'
      refine ⟨c :: a, b, ?_, ?_, ?_⟩
      · simp only [splitFirstEq, if_neg hc, hsp]
      · rw [List.cons_append, ← hcat]
      · intro hmem
        rcases List.mem_cons.1 hmem with h | h
        · exact hc h.symm
        · exact hna h

/-- C10.  Any non-blank, non-comment line containing `'='` is split
exactly at the first `'='`: the split has exactly two parts, the key part
holds no `'='`, the value part keeps every later `'='`, and the
extractor's per-line function takes the two-part branch (so the
`ValueError` fallback arm is unreachable under the guard). -/
theorem c10_split_at_first_eq :
    ∀ line : String, pyStrip line ≠ "" → pyBeginsWith (pyStrip line) "#" = false →
    '=' ∈ (pyStrip line).toList →
    ∃ k v : String,
      pySplitOnceEq (pyStrip line) = [k, v] ∧
      (pyStrip line).toList = k.toList ++ '=' :: v.toList ∧
      '=' ∉ k.toList ∧
      process_lang_line line = handle_lang_entry (pyStrip k) (pyStrip v) := by
  intro line h1 h2 h3
  obtain ⟨a, b, hsp, hcat, hna⟩ := splitFirstEq_spec _ h3
  have hsplit : pySplitOnceEq (pyStrip line) = [⟨a⟩, ⟨b⟩] := by
    simp only [pySplitOnceEq, hsp]
  refine ⟨⟨a⟩, ⟨b⟩, hsplit, hcat, hna, ?_⟩
  simp only [process_lang_line]
  rw [if_neg (by simp [h1, h2]; exact h3), hsplit]

/-- Witness for C10 at the line `"npc.a = b=c"` (a value with an
embedded second `'='`). -/
theorem c10_split_at_first_eq_witness :
    ∃ k v : String,
      pySplitOnceEq (pyStrip "npc.a = b=c") = [k, v] ∧
      (pyStrip "npc.a = b=c").toList = k.toList ++ '=' :: v.toList ∧
      '=' ∉ k.toList ∧
      process_lang_line "npc.a = b=c" = handle_lang_entry (pyStrip k) (pyStrip v) :=
  c10_split_at_first_eq "npc.a = b=c" (by decide) (by decide) (by decide)

/-- C3.  A non-existent root yields an empty locator result, and whenever
the locator finds nothing, both pipelines return the error pair with
their specific "no localization files found" message (and perform no
file action). -/
theorem c3_no_files_reason :
    find_language_files none = [] ∧
    (∀ (root : Option (List DiskFile)) (ts : TextstatOracle)
        (dictFile : Option (List String)) (sp : SpellOracle),
      find_language_files root = [] →
      perform_language_analysis root ts = (.error analysisNoLangMessage, []) ∧
      perform_spell_check root dictFile sp = (.error spellNoLangMessage, [])) := by
  refine ⟨rfl, ?_⟩
  intro root ts dictFile sp h
  constructor
  · simp only [perform_language_analysis, h]
  · simp only [perform_spell_check, h]

/-- Witness for C3 at the non-existent root. -/
theorem c3_no_files_reason_witness :
    perform_language_analysis none tsZero = (.error analysisNoLangMessage, []) ∧
    perform_spell_check none none spZero = (.error spellNoLangMessage, []) :=
  c3_no_files_reason.2 none tsZero none spZero rfl

/-- C8.  Whenever the selected candidate file is smaller than 100 bytes,
both pipelines fail with their size-specific "too small" message with an
empty action trace — in particular no extraction event occurs, so
extraction is only ever reached after the size check has passed. -/
theorem c8_size_guard_before_extraction :
    ∀ (root : Option (List DiskFile)) (ts : TextstatOracle)
      (dictFile : Option (List String)) (sp : SpellOracle) (f : FileInfo) (fs : List FileInfo),
      find_language_files root = f :: fs →
      (selected_candidate f fs).size_bytes < 100 →
      perform_language_analysis root ts =
        (.error (analysisTooSmallMessage (selected_candidate f fs)
          ((f :: fs).filter (fun i => i.is_english)).length
          ((f :: fs).filter (fun i => !i.is_english)).length), []) ∧
      perform_spell_check root dictFile sp =
        (.error (spellTooSmallMessage (selected_candidate f fs)
          ((f :: fs).filter (fun i => i.is_english)).length
          ((f :: fs).filter (fun i => !i.is_english)).length), []) ∧
      (∀ p, Event.extractText p ∉ (perform_language_analysis root ts).2) ∧
      (∀ p, Event.extractText p ∉ (perform_spell_check root dictFile sp).2) := by
  intro root ts dictFile sp f fs hfind hsize
  have hA : perform_language_analysis root ts =
      (.error (analysisTooSmallMessage (selected_candidate f fs)
        ((f :: fs).filter (fun i => i.is_english)).length
        ((f :: fs).filter (fun i => !i.is_english)).length), []) := by
    simp only [perform_language_analysis, hfind, analysis_with_files]
    rw [if_pos hsize]
  have hB : perform_spell_check root dictFile sp =
      (.error (spellTooSmallMessage (selected_candidate f fs)
        ((f :: fs).filter (fun i => i.is_english)).length
        ((f :: fs).filter (fun i => !i.is_english)).length), []) := by
    simp only [perform_spell_check, hfind, spell_with_files]
    rw [if_pos hsize]
  refine ⟨hA, hB, ?_, ?_⟩
  · intro p
    rw [hA]
    simp
  · intro p
    rw [hB]
    simp

/-- Witness for C8 at a root holding a single 42-byte English file. -/
theorem c8_size_guard_before_extraction_witness :
    perform_language_analysis smallRoot tsZero =
      (.error (analysisTooSmallMessage (selected_candidate smallInfo []) 1 0), []) ∧
    perform_spell_check smallRoot none spZero =
      (.error (spellTooSmallMessage (selected_candidate smallInfo []) 1 0), []) ∧
    Event.extractText "texts/en_us.lang" ∉ (perform_language_analysis smallRoot tsZero).2 ∧
    Event.extractText "texts/en_us.lang" ∉ (perform_spell_check smallRoot none spZero).2 := by
  have h := c8_size_guard_before_extraction smallRoot tsZero none spZero smallInfo []
    rfl (by decide)
  exact ⟨h.1, h.2.1, h.2.2.1 "texts/en_us.lang", h.2.2.2 "texts/en_us.lang"⟩

/-- The unpacked root of the C1 path-traversal scenario. -/
def c1Root : List String := ["data", "unpacked", "world1"]

/-- The user-supplied relative `file_path` escaping into the sibling
directory whose name extends the root's last component. -/
def c1Path : UserPath := ⟨false, ["..", "world1evil", "secret.txt"]⟩

/-- A filesystem holding one file outside the root, in the sibling
directory `world1evil`. -/
def c1Files : List (List String × String) :=
  [(["data", "unpacked", "world1evil", "secret.txt"], "top secret")]

/-- C1 (violation exhibit).  The relative path
`../world1evil/secret.txt` resolves outside the `world1` root, yet the
endpoints' `startswith` security check accepts it (the resolved string
`/data/unpacked/world1evil/...` begins with `/data/unpacked/world1`), so
the read endpoint returns the outside file's content and the save
endpoint writes outside the root instead of rejecting with
"Invalid file path". -/
theorem c1_path_check_bypassed :
    security_check c1Root c1Path = true ∧
    withinRoot c1Root c1Path = false ∧
    api_get_file_content c1Files c1Root c1Path = .ok "top secret" ∧
    api_save_file_content c1Files c1Root c1Path "pwned" =
      .ok [(["data", "unpacked", "world1evil", "secret.txt"], "pwned")] := by
  refine ⟨by decide, by decide, rfl, rfl⟩

end MCEdu
